import Mathlib

/-!
Shallow embedding of the ThinkTank chatbot backend (src/backend.py).

The backend is a Flask app with four content endpoints: chat (a query
answered against a Cognitive Search index), upload_and_ask (a one-shot
question about a freshly uploaded document), extract_text (document
text extraction), and followup_chat (multi-turn chat over the text of
an uploaded document).  External services — blob storage, the document
intelligence service and the completion service — are modelled as
oracle parameters (for completion: a function from the composed message
list to either an answer or an exception message).  The pure
composition logic of the backend (storage-key derivation, SAS grant
fields, paragraph joining, prompt composition, message-list assembly,
error conversion and HTTP status selection) is embedded directly from
the source text.
-/

namespace ThinkTank

/-- One chat turn, as in the role/content dicts passed to the completion
client in backend.py. -/
structure Turn where
  role : String
  content : String
deriving DecidableEq

/-- The JSON payload returned by the chat endpoint: jsonify with a single
response field. -/
structure ChatResponse where
  response : String
deriving DecidableEq

/-- Permissions record of a SAS token, mirroring BlobSasPermissions of the
Azure SDK; the constructor call in backend.py sets read=True and leaves
write and delete at their default False. -/
structure BlobSasPermissions where
  read : Bool := false
  write : Bool := false
  delete : Bool := false
deriving DecidableEq

/-- An issued shared-access grant for a stored blob: its permissions, the
time it was issued at, and its expiry (times in seconds). -/
structure AccessGrant where
  permission : BlobSasPermissions
  issuedAt : Nat
  expiresAt : Nat
deriving DecidableEq

/-- Embeds the generate_blob_sas call of upload_and_ask and extract_text
(backend.py lines 144-151 and 194-201): permission=BlobSasPermissions(read=True),
expiry=datetime.utcnow() + timedelta(minutes=10).  The argument now is the
current time in seconds; ten minutes is 10 * 60 seconds. -/
def generate_blob_sas (now : Nat) : AccessGrant :=
  { permission := { read := true }
    issuedAt := now
    expiresAt := now + 10 * 60 }

/-- Embeds the blob-name derivation of upload_and_ask and extract_text
(backend.py lines 139 and 190):
filename = f"{uuid.uuid4()}_{file.filename}" — the freshly generated
identifier, an underscore, then the original file name. -/
def filename (uid original : String) : String :=
  uid ++ "_" ++ original

/-- Embeds line 157 of backend.py:
full_text = " ".join([p.content for p in result.paragraphs]) if result.paragraphs
else "No content found".  The argument is the list of paragraph content
strings reported by the document intelligence service, in service order. -/
def full_text (paragraphs : List String) : String :=
  if paragraphs.isEmpty then "No content found"
  else String.intercalate " " paragraphs

/-- Fixed leading text of the upload_and_ask prompt f-string
(backend.py lines 160-162), up to the interpolated full_text. -/
def uploadPromptPre : String :=
  "\n        The user uploaded this document:\n        "

/-- Fixed middle text of the upload_and_ask prompt f-string
(backend.py lines 163-165), between full_text and user_question. -/
def uploadPromptMid : String :=
  "\n\n        They asked:\n        "

/-- Fixed trailing text of the upload_and_ask prompt f-string
(backend.py lines 166-168), after the interpolated user_question. -/
def uploadPromptSuf : String :=
  "\n\n        Please answer using only the document\x27s contents.\n        "

/-- The upload_and_ask prompt (backend.py lines 160-168): the f-string
interpolating the extracted document body and the user question. -/
def uploadPrompt (body user_question : String) : String :=
  uploadPromptPre ++ body ++ uploadPromptMid ++ user_question ++ uploadPromptSuf

/-- The message list upload_and_ask sends to the completion client
(backend.py lines 175-178), as a function of the extracted paragraphs and
the user question. -/
def upload_and_ask_messages (paragraphs : List String) (user_question : String) :
    List Turn :=
  [⟨"system", "You are an AI document assistant."⟩,
   ⟨"user", uploadPrompt (full_text paragraphs) user_question⟩]

/-- Fixed leading text of the chatbot_query prompt f-string
(backend.py lines 96-98), up to the interpolated user_input. -/
def chatPromptPre : String :=
  "\n      You are an AI assistant helping users engage with business documents.\n      User query: "

/-- First segment of the fixed text following user_input in the
chatbot_query prompt (backend.py lines 99-101): the always-specific line
and the summary-first sentence, ending where the section label list
begins. -/
def chatBlockIntro : String :=
  "\n\n    Always provide specific, relevant information      \n      First, give a general summary(Include scope & purpose). Then extract , focus on these:\n"

/-- Second segment of the fixed text following user_input in the
chatbot_query prompt (backend.py lines 102-108): the seven section label
lines. -/
def chatBlockLabels : String :=
  "      - Technology Specs\n      - Problem being addressed\n        -User numbers and deployment scale\n        -Current systems and pain points\n        - Action Items for proposal team\n        - Required integrations\n        - If suggesting BOM items, explain why they match the requirements\n"

/-- Third segment of the fixed text following user_input in the
chatbot_query prompt (backend.py lines 109-112): the missing-section
policy sentence and the closing line. -/
def chatBlockPolicy : String :=
  "        If any section is missing, respond with: \"This document does not contain information on [Missing Section].\"\n\n        Respond clearly and conversationally.\n    "

/-- The fixed instruction block of the chatbot_query prompt: everything in
the f-string after the interpolated user_input (backend.py lines 99-112). -/
def chatInstructionBlock : String :=
  chatBlockIntro ++ chatBlockLabels ++ chatBlockPolicy

/-- The chatbot_query prompt (backend.py lines 96-112): the f-string
interpolating user_input between the fixed preamble and the fixed
instruction block. -/
def chatbotPrompt (user_input : String) : String :=
  chatPromptPre ++ user_input ++ chatInstructionBlock

/-- The message list chatbot_query sends to the completion client
(backend.py lines 120-123). -/
def chatbotMessages (user_input : String) : List Turn :=
  [⟨"system", "You answer using Azure Cognitive Search."⟩,
   ⟨"user", chatbotPrompt user_input⟩]

/-- Embeds chatbot_query (backend.py lines 80-128).  The completion
service is an oracle from the composed message list to either the answer
text (the try branch) or the raised exception message (the except
branch); the except branch returns the explanatory error string. -/
def chatbot_query (user_input : String)
    (complete : List Turn → Except String String) : String :=
  match complete (chatbotMessages user_input) with
  | Except.ok answer => answer
  | Except.error ex => "Error retrieving insights: " ++ ex

/-- Embeds request.json.get(key, default) on a parsed JSON object with
string values, modelled as an association list of fields. -/
def jsonGetD (body : List (String × String)) (key dflt : String) : String :=
  match body.find? (fun kv => kv.fst == key) with
  | some kv => kv.snd
  | none => dflt

/-- Embeds the chat endpoint (backend.py lines 74-78):
user_input = request.json.get("message", ""), then
jsonify(response=chatbot_query(user_input)). -/
def chat (body : List (String × String))
    (complete : List Turn → Except String String) : ChatResponse :=
  { response := chatbot_query (jsonGetD body "message" "") complete }

/-- The HTTP outcome of the extract_text endpoint: either a text payload
(jsonify with a text field, status 200 implicit) or an error payload with
an explicit status code. -/
inductive ExtractTextResponse where
  | text (t : String) : ExtractTextResponse
  | err (message : String) (status : Nat) : ExtractTextResponse
deriving DecidableEq

/-- Embeds extract_text (backend.py lines 186-219).  The analysis argument
is the outcome of the fallible upload-and-analyze steps: an exception
message (caught by the except branch, returned with status 500) or the
list of extracted paragraph contents.  With zero paragraphs the endpoint
returns the no-text error with status 400; otherwise it returns the
space-joined text. -/
def extract_text (analysis : Except String (List String)) : ExtractTextResponse :=
  match analysis with
  | Except.error e => ExtractTextResponse.err e 500
  | Except.ok paragraphs =>
    if paragraphs.isEmpty then
      ExtractTextResponse.err "No text extracted from document" 400
    else
      ExtractTextResponse.text (String.intercalate " " paragraphs)

/-- The prompt_intro string of followup_chat (backend.py lines 230-245),
transcribed verbatim. -/
def prompt_intro : String :=
  "\n\n        You are an AI assistant analyzing uploaded business documents.\n        First, summarize key content(include problem trying to solve/address). Then extract:\n        - Technology Specs\n        -User numbers and deployment scale\n        -Current systems and pain points\n        - Action Items for proposal team\n        - Required integrations\n        - If suggesting BOM items, explain why they match the requirements\n        - Compliance requirements\n        -conclusive summary\n        If any section is missing, respond with: \"This document does not contain information on [Missing Section].\"\n        Respond clearly and conversationally.\n\n        "

/-- Embeds the message composition of followup_chat (backend.py lines
248-251): messages = [system prompt_intro, system doc_text] + chat_history. -/
def followup_messages (doc_text : String) (chat_history : List Turn) : List Turn :=
  [⟨"system", prompt_intro⟩, ⟨"system", doc_text⟩] ++ chat_history

/-- Specification-side join: the concatenation of the strings in order
with exactly one space between consecutive elements and nothing else
added.  Used to check the intercalate-based body derivation against the
wording of the spec. -/
def joinWithSingleSpace : List String → String
  | [] => ""
  | [p] => p
  | p :: q :: ps => p ++ " " ++ joinWithSingleSpace (q :: ps)

/-- The seven section labels of the single-shot (chatbot_query) prompt
shape, as the spec lists them. -/
def sectionLabels : List String :=
  ["- Technology Specs",
   "- Problem being addressed",
   "-User numbers and deployment scale",
   "-Current systems and pain points",
   "- Action Items for proposal team",
   "- Required integrations",
   "- If suggesting BOM items, explain why they match the requirements"]

/-- The missing-section policy sentence of the prompt templates. -/
def missingSectionSentence : String :=
  "If any section is missing, respond with: \"This document does not contain information on [Missing Section].\""

/-- A constant completion oracle, used to instantiate theorems at concrete
inputs. -/
def constComplete (r : Except String String) : List Turn → Except String String :=
  fun _ => r

/-- Boolean check that pat occurs as a contiguous subsequence of l. -/
def hasSub (pat : List Char) : List Char → Bool
  | [] => pat.isEmpty
  | c :: rest => pat.isPrefixOf (c :: rest) || hasSub pat rest

theorem isPrefixOf_sound {l₁ l₂ : List Char} (h : l₁.isPrefixOf l₂ = true) :
    ∃ t, l₂ = l₁ ++ t := by
  induction l₁ generalizing l₂ with
  | nil => exact ⟨l₂, rfl⟩
  | cons a as ih =>
    cases l₂ with
    | nil => simp [List.isPrefixOf] at h
    | cons b bs =>
      simp only [List.isPrefixOf, Bool.and_eq_true, beq_iff_eq] at h
      obtain ⟨t, ht⟩ := ih h.2
      exact ⟨t, by simp [h.1, ht]⟩

theorem hasSub_sound {pat l : List Char} (h : hasSub pat l = true) :
    ∃ t₁ t₂, l = t₁ ++ pat ++ t₂ := by
  induction l with
  | nil =>
    simp only [hasSub, List.isEmpty_iff] at h
    exact ⟨[], [], by simp [h]⟩
  | cons c rest ih =>
    simp only [hasSub, Bool.or_eq_true] at h
    rcases h with h | h
    · obtain ⟨t, ht⟩ := isPrefixOf_sound h
      exact ⟨[], t, by simp [ht]⟩
    · obtain ⟨t₁, t₂, ht⟩ := ih h
      exact ⟨c :: t₁, t₂, by simp [ht]⟩

/-- Containment of a string in a string, via the character lists. -/
def strHasSub (pat s : String) : Bool :=
  hasSub pat.data s.data

theorem strHasSub_sound {pat s : String} (h : strHasSub pat s = true) :
    ∃ t₁ t₂ : List Char, s.data = t₁ ++ pat.data ++ t₂ :=
  hasSub_sound h

/-- Claim C1: for every follow-up chat request with document body doc_text
and history chat_history, the turn sequence sent to the completion service
is exactly the system turn carrying the fixed instruction block, then the
system turn carrying the document body, then the history in its original
order with no turn altered, dropped or reordered; when the history is
empty the sequence is exactly the two system turns. -/
theorem followup_turns_exact (doc_text : String) (chat_history : List Turn) :
    followup_messages doc_text chat_history =
      ⟨"system", prompt_intro⟩ :: ⟨"system", doc_text⟩ :: chat_history ∧
    (followup_messages doc_text chat_history).take 2 =
      [⟨"system", prompt_intro⟩, ⟨"system", doc_text⟩] ∧
    (followup_messages doc_text chat_history).drop 2 = chat_history ∧
    followup_messages doc_text [] =
      [⟨"system", prompt_intro⟩, ⟨"system", doc_text⟩] :=
  ⟨rfl, rfl, rfl, rfl⟩

/-- Claim C2: in the upload-and-ask flow, an extraction reporting zero
paragraphs yields the fixed sentinel body "No content found", which is not
the empty string. -/
theorem full_text_empty_is_sentinel :
    full_text [] = "No content found" ∧ full_text [] ≠ "" :=
  ⟨rfl, by decide⟩

/-- Claim C3, counterexample: with zero extracted paragraphs,
upload_and_ask embeds the sentinel "No content found" in the
document-body slot of the prompt it composes for the completion service —
there is no branch on an empty-result indicator. -/
theorem upload_sentinel_embedded :
    upload_and_ask_messages [] "What is the budget?" =
      [⟨"system", "You are an AI document assistant."⟩,
       ⟨"user", uploadPrompt "No content found" "What is the budget?"⟩] :=
  rfl

/-- Claim C3, amended: in the upload-and-ask flow the caller does not
branch on an empty-result indicator; for every question, when extraction
yields zero paragraphs the sentinel "No content found" is embedded as the
grounding document body in the prompt composed for the completion
service. -/
theorem upload_empty_grounds_on_sentinel (user_question : String) :
    upload_and_ask_messages [] user_question =
      [⟨"system", "You are an AI document assistant."⟩,
       ⟨"user", uploadPrompt "No content found" user_question⟩] :=
  rfl

/-- Claim C5: every access grant issued for an upload expires exactly ten
minutes (10 * 60 seconds) after issuance, hence strictly after issuance,
and carries read permission only — write and delete are never granted. -/
theorem access_grant_read_only_and_expiry (now : Nat) :
    (generate_blob_sas now).expiresAt = (generate_blob_sas now).issuedAt + 10 * 60 ∧
    (generate_blob_sas now).issuedAt < (generate_blob_sas now).expiresAt ∧
    (generate_blob_sas now).permission.read = true ∧
    (generate_blob_sas now).permission.write = false ∧
    (generate_blob_sas now).permission.delete = false := by
  refine ⟨rfl, ?_, rfl, rfl, rfl⟩
  show now < now + 10 * 60
  omega

/-- Claim C4: for every request body and completion oracle, the chat
endpoint returns a response-string payload; in particular, when the
completion call raises, the payload carries the explanatory string
"Error retrieving insights: " followed by the underlying message rather
than a propagated fault. -/
theorem chat_errors_degrade_to_response (body : List (String × String))
    (complete : List Turn → Except String String) :
    (∃ s : String, chat body complete = { response := s }) ∧
    (∀ m : String,
      complete (chatbotMessages (jsonGetD body "message" "")) = Except.error m →
      chat body complete = { response := "Error retrieving insights: " ++ m }) := by
  refine ⟨⟨chatbot_query (jsonGetD body "message" "") complete, rfl⟩, ?_⟩
  intro m hm
  unfold chat chatbot_query
  rw [hm]

/-- Witness for claim C4 at a concrete erroring completion oracle. -/
theorem chat_errors_degrade_to_response_witness :
    chat [("message", "Summarize the proposal")]
        (constComplete (Except.error "quota exceeded")) =
      { response := "Error retrieving insights: quota exceeded" } :=
  (chat_errors_degrade_to_response [("message", "Summarize the proposal")]
    (constComplete (Except.error "quota exceeded"))).2 "quota exceeded" rfl

theorem join_head_append (x y : String) (as : List String) :
    joinWithSingleSpace ((x ++ y) :: as) = x ++ joinWithSingleSpace (y :: as) := by
  cases as with
  | nil => rfl
  | cons b bs => simp [joinWithSingleSpace, String.append_assoc]

theorem intercalate_go_join (as : List String) :
    ∀ acc : String, String.intercalate.go acc " " as = joinWithSingleSpace (acc :: as) := by
  induction as with
  | nil => intro acc; rfl
  | cons a as ih =>
    intro acc
    show String.intercalate.go (acc ++ " " ++ a) " " as = _
    rw [ih (acc ++ " " ++ a), join_head_append (acc ++ " ") a as]
    rfl

/-- Claim C6: for every non-empty paragraph list, the derived document
body is the concatenation of the paragraph contents in service order with
exactly one separating space between consecutive paragraphs and nothing
else added. -/
theorem full_text_single_space_join (paragraphs : List String)
    (h : paragraphs ≠ []) :
    full_text paragraphs = joinWithSingleSpace paragraphs := by
  cases paragraphs with
  | nil => exact absurd rfl h
  | cons p ps =>
    show String.intercalate " " (p :: ps) = _
    rw [String.intercalate]
    exact intercalate_go_join ps p

/-- Witness for claim C6 at a concrete two-paragraph document. -/
theorem full_text_single_space_join_witness :
    full_text ["first paragraph", "second paragraph"] =
      joinWithSingleSpace ["first paragraph", "second paragraph"] ∧
    joinWithSingleSpace ["first paragraph", "second paragraph"] =
      "first paragraph second paragraph" :=
  ⟨full_text_single_space_join ["first paragraph", "second paragraph"] (by decide),
   rfl⟩

/-- Claim C8: storage keys combine a freshly generated identifier with the
original file name; two uploads with distinct identifiers (uuid4 strings,
which all have the same length) get distinct storage keys even when the
original file names coincide. -/
theorem filename_distinct_of_uid_distinct (uid₁ uid₂ original₁ original₂ : String)
    (hlen : uid₁.length = uid₂.length) (hne : uid₁ ≠ uid₂) :
    filename uid₁ original₁ ≠ filename uid₂ original₂ := by
  intro heq
  apply hne
  have hdata := congrArg String.data heq
  simp only [filename, String.data_append] at hdata
  have h0 : uid₁.data.length = uid₂.data.length := hlen
  have hlen' : (uid₁.data ++ ("_" : String).data).length =
      (uid₂.data ++ ("_" : String).data).length := by
    simp [List.length_append, h0]
  have h1 := List.append_inj hdata hlen'
  have h2 := List.append_inj h1.1 h0
  exact String.ext h2.1

/-- Witness for claim C8: two uploads of report.pdf under distinct
identifiers get distinct storage keys. -/
theorem filename_distinct_of_uid_distinct_witness :
    filename "1f2e3d4c" "report.pdf" ≠ filename "5a6b7c8d" "report.pdf" :=
  filename_distinct_of_uid_distinct "1f2e3d4c" "5a6b7c8d" "report.pdf" "report.pdf"
    rfl (by decide)

/-- Claim C9: the extract-text operation answers zero extracted paragraphs
with an error payload carrying status 400, distinct from the 500 used for
upstream failures, and returns a text payload exactly when at least one
paragraph was extracted. -/
theorem extract_text_status_partition :
    extract_text (Except.ok []) =
      ExtractTextResponse.err "No text extracted from document" 400 ∧
    (∀ e : String, extract_text (Except.error e) = ExtractTextResponse.err e 500) ∧
    (400 : Nat) ≠ 500 ∧
    (∀ paragraphs : List String, paragraphs ≠ [] →
      extract_text (Except.ok paragraphs) =
        ExtractTextResponse.text (String.intercalate " " paragraphs)) ∧
    (∀ (analysis : Except String (List String)) (t : String),
      extract_text analysis = ExtractTextResponse.text t →
      ∃ paragraphs, analysis = Except.ok paragraphs ∧ paragraphs ≠ []) := by
  refine ⟨rfl, fun e => rfl, by decide, ?_, ?_⟩
  · intro ps hps
    cases ps with
    | nil => exact absurd rfl hps
    | cons p pp => rfl
  · intro analysis t h
    cases analysis with
    | error e => simp [extract_text] at h
    | ok ps =>
      refine ⟨ps, rfl, ?_⟩
      intro hnil
      subst hnil
      simp [extract_text] at h

/-- Witness for claim C9 at a concrete two-paragraph extraction. -/
theorem extract_text_status_partition_witness :
    extract_text (Except.ok ["hello", "world"]) =
      ExtractTextResponse.text (String.intercalate " " ["hello", "world"]) ∧
    String.intercalate " " ["hello", "world"] = "hello world" :=
  ⟨extract_text_status_partition.2.2.2.1 ["hello", "world"] (by decide), rfl⟩

/-- Claim C10: an indexed chat request whose JSON body has no message
field does not fail — the user query defaults to the empty string and the
request proceeds through prompt composition and completion to a
response-string payload. -/
theorem chat_missing_message_defaults_empty (body : List (String × String))
    (complete : List Turn → Except String String)
    (h : ∀ kv ∈ body, kv.fst ≠ "message") :
    jsonGetD body "message" "" = "" ∧
    chat body complete = { response := chatbot_query "" complete } := by
  have hf : body.find? (fun kv => kv.fst == "message") = none := by
    rw [List.find?_eq_none]
    intro kv hkv
    simpa using h kv hkv
  have hg : jsonGetD body "message" "" = "" := by
    unfold jsonGetD
    rw [hf]
  refine ⟨hg, ?_⟩
  unfold chat
  rw [hg]

/-- Witness for claim C10 at a concrete body without a message field. -/
theorem chat_missing_message_defaults_empty_witness :
    jsonGetD [("question", "hi")] "message" "" = "" ∧
    chat [("question", "hi")] (constComplete (Except.ok "fine")) =
      { response := chatbot_query "" (constComplete (Except.ok "fine")) } :=
  chat_missing_message_defaults_empty [("question", "hi")]
    (constComplete (Except.ok "fine")) (by decide)

set_option maxRecDepth 8192 in
/-- Claim C7, counterexample: there is no fixed block such that the
chatbot_query user turn is that block followed by the literal user query —
in the source the query is interpolated before the instruction block, not
after it. -/
theorem chat_prompt_query_not_last :
    ¬ ∃ block : String, ∀ q : String, chatbotPrompt q = block ++ q := by
  rintro ⟨block, hb⟩
  have h0 : block = chatbotPrompt "" := by
    have h := hb ""
    rw [String.append_empty] at h
    exact h.symm
  have h1 := hb "XQUERYX"
  rw [h0] at h1
  exact absurd h1 (by decide)

set_option maxRecDepth 8192 in
/-- Claim C7, amended: the composed user turn is the fixed preamble, then
the literal user query, then the fixed instruction block — summary-first
sentence, then the section label list, then the missing-section policy
sentence — with the block and its label list unchanged by the query. -/
theorem chat_prompt_structure (q : String) :
    chatbotPrompt q =
      chatPromptPre ++ q ++ (chatBlockIntro ++ chatBlockLabels ++ chatBlockPolicy) ∧
    chatbotMessages q =
      [⟨"system", "You answer using Azure Cognitive Search."⟩,
       ⟨"user", chatbotPrompt q⟩] ∧
    (∀ l ∈ sectionLabels, ∃ t₁ t₂ : List Char,
      chatBlockLabels.data = t₁ ++ l.data ++ t₂) ∧
    (∃ t₁ t₂ : List Char,
      chatBlockIntro.data = t₁ ++ ("First, give a general summary" : String).data ++ t₂) ∧
    (∃ t₁ t₂ : List Char,
      chatBlockPolicy.data = t₁ ++ missingSectionSentence.data ++ t₂) := by
  refine ⟨rfl, rfl, ?_, ?_, ?_⟩
  · intro l hl
    fin_cases hl <;> exact strHasSub_sound (by decide)
  · exact strHasSub_sound (by decide)
  · exact strHasSub_sound (by decide)

/-- Witness for claim C7 at a concrete query and section label. -/
theorem chat_prompt_structure_witness :
    chatbotPrompt "Summarize the proposal" =
      chatPromptPre ++ "Summarize the proposal" ++
        (chatBlockIntro ++ chatBlockLabels ++ chatBlockPolicy) ∧
    ∃ t₁ t₂ : List Char,
      chatBlockLabels.data = t₁ ++ ("- Technology Specs" : String).data ++ t₂ :=
  ⟨(chat_prompt_structure "Summarize the proposal").1,
   (chat_prompt_structure "Summarize the proposal").2.2.1 "- Technology Specs"
     (by decide)⟩

end ThinkTank
